import Mathlib

/-
Shallow embedding of the chatbot core of this repository
(src/apps/chatbot/views.py): the matching engine (search_products,
get_personalized_recommendations) and the orchestrator (ChatbotAPIView.post).

Modelling conventions:
- Python strings are Lean String (a structure over List Char in this
  toolchain); lowercasing, stripping and substring tests are defined
  over the underlying character lists so that they compute in the kernel.
- The Django ORM queryset chains are modelled as List.filter / List.take
  over an in-memory catalog (a List Product); a filter on a nullable
  foreign key (seller__..., category__name__...) requires the reference
  to be present, as the SQL join does.
- Nullable text columns are modelled as String with the empty string for
  NULL, matching how the Python code coalesces them (x or fallback).
- Prices are modelled as integers; no claim inspects price formatting.
- The LLM provider is an oracle, a function from the index of the
  provider round-trip (0, 1, ...) to either a failure (an exception in
  the Python client) or a chat message; the orchestrator is instrumented
  to also return how many provider calls it made.
-/

/-- Python str.lower, restricted to the ASCII mapping of Char.toLower. -/
def lowerS (s : String) : String := ⟨s.data.map Char.toLower⟩

/-- Python str.strip: drop leading and trailing whitespace. -/
def stripS (s : String) : String :=
  ⟨((s.data.dropWhile Char.isWhitespace).reverse.dropWhile Char.isWhitespace).reverse⟩

/-- Contiguous-sublist test on character lists (the substring relation). -/
def subList (needle : List Char) : List Char → Bool
  | [] => needle.isEmpty
  | h :: t => needle.isPrefixOf (h :: t) || subList needle t

/-- Python substring membership: needle in hay. -/
def strContains (hay needle : String) : Bool := subList needle.data hay.data

/-- Django icontains lookup: case-insensitive substring match of q in field. -/
def icontains (field q : String) : Bool := strContains (lowerS field) (lowerS q)

/-- Seller profile attributes used by the views (a subset of the User model). -/
structure Seller where
  id : Nat
  first_name : String
  username : String
  location : String
  university : String
  faculty : String
deriving DecidableEq, Repr

/-- A catalog product as used by the views; category holds the category
name when a category is set, seller is the nullable seller reference. -/
structure Product where
  id : Nat
  title : String
  description : String
  price : Int
  condition : String
  category : Option String
  university : String
  faculty : String
  status : String
  seller : Option Seller
deriving DecidableEq, Repr

/-- The seller sub-dictionary of a result: full info when the product has
a seller, otherwise the placeholder dictionary with name Unknown Seller. -/
inductive SellerInfo where
  | known (id : Nat) (name : String) (username : String)
  | unknown
deriving DecidableEq, Repr

/-- The name field of the seller sub-dictionary. -/
def sellerName : SellerInfo → String
  | .known _ n _ => n
  | .unknown => "Unknown Seller"

/-- The result dictionary built for each returned product. -/
structure SearchResult where
  id : Nat
  title : String
  description : String
  price : Int
  condition : String
  category : String
  university : String
  faculty : String
  seller : SellerInfo
deriving DecidableEq, Repr

/-- The per-product projection shared by both result loops in views.py. -/
def productToResult (p : Product) : SearchResult :=
  { id := p.id
    title := p.title
    description := p.description
    price := p.price
    condition := p.condition
    category := p.category.getD "No category"
    university := if p.university = "" then "Not specified" else p.university
    faculty := if p.faculty = "" then "Not specified" else p.faculty
    seller :=
      match p.seller with
      | some s => .known s.id (if s.first_name = "" then s.username else s.first_name) s.username
      | none => .unknown }

/-- Query normalization at the top of search_products: lower then strip. -/
def normQuery (q : String) : String := stripS (lowerS q)

/-- Category-name match of tier 3; a product without a category never
qualifies (the SQL join on the nullable foreign key excludes it). -/
def categoryMatch (q : String) (p : Product) : Bool :=
  match p.category with
  | some n => icontains n q
  | none => false

/-- Tier 1 of search_products: active products whose title contains the
(already normalized) query, capped at 10 rows. -/
def searchTier1 (catalog : List Product) (q : String) : List Product :=
  (catalog.filter (fun p => p.status == "active" && icontains p.title q)).take 10

/-- Tier 2 of search_products: active products whose description
contains the query, capped at 10 rows. -/
def searchTier2 (catalog : List Product) (q : String) : List Product :=
  (catalog.filter (fun p => p.status == "active" && icontains p.description q)).take 10

/-- Tier 3 of search_products: active products whose category name
contains the query, capped at 10 rows. -/
def searchTier3 (catalog : List Product) (q : String) : List Product :=
  (catalog.filter (fun p => p.status == "active" && categoryMatch q p)).take 10

/-- The product rows selected by search_products, before projection: the
query is normalized once, then tier 1 is used when it has any row, else
tier 2 when it has any row, else tier 3 (the two emptiness re-checks of
the reassigned products variable in views.py). -/
def searchSelect (catalog : List Product) (query : String) : List Product :=
  let q := normQuery query
  if (searchTier1 catalog q).length = 0 then
    if (searchTier2 catalog q).length = 0 then searchTier3 catalog q
    else searchTier2 catalog q
  else searchTier1 catalog q

/-- search_products of views.py over an explicit catalog. -/
def search_products (catalog : List Product) (query : String) : List SearchResult :=
  (searchSelect catalog query).map productToResult

/-- The authenticated user profile fields read by the views; missing or
NULL attributes are coalesced to the empty string as in the code. -/
structure User where
  location : String
  university : String
  faculty : String
deriving DecidableEq, Repr

/-- Pass 1 seller filter: location, university and faculty all match. -/
def sellerMatchAll (u : User) (p : Product) : Bool :=
  match p.seller with
  | some s =>
      icontains s.location u.location && icontains s.university u.university &&
        icontains s.faculty u.faculty
  | none => false

/-- Pass 2 seller filter: university and faculty match. -/
def sellerMatchUniFac (u : User) (p : Product) : Bool :=
  match p.seller with
  | some s => icontains s.university u.university && icontains s.faculty u.faculty
  | none => false

/-- Pass 3 seller filter: university alone must match. -/
def sellerMatchUni (u : User) (p : Product) : Bool :=
  match p.seller with
  | some s => icontains s.university u.university
  | none => false

/-- Pass 1 of get_personalized_recommendations: active products whose
seller fits all three fields, capped at 5. -/
def recPass1 (catalog : List Product) (u : User) : List Product :=
  (catalog.filter (fun p => p.status == "active" && sellerMatchAll u p)).take 5

/-- One widening pass of get_personalized_recommendations: when fewer
than 3 products are selected so far, extend with up to 3 active products
satisfying the pass filter whose id is not already selected, then
truncate the combined list to 5. -/
def recWiden (catalog : List Product) (sellerPass : Product → Bool)
    (products : List Product) : List Product :=
  if products.length < 3 then
    let extra := (catalog.filter (fun p =>
      p.status == "active" && sellerPass p &&
        !((products.map (fun x => x.id)).contains p.id))).take 3
    (products ++ extra).take 5
  else products

/-- The product rows selected by get_personalized_recommendations: empty
when all three profile fields are empty, otherwise pass 1 widened by the
university+faculty pass and then by the university-only pass. -/
def recSelect (catalog : List Product) (u : User) : List Product :=
  if u.location = "" && u.university = "" && u.faculty = "" then []
  else
    let products := recPass1 catalog u
    let products := recWiden catalog (sellerMatchUniFac u) products
    recWiden catalog (sellerMatchUni u) products

/-- get_personalized_recommendations of views.py over an explicit catalog. -/
def get_personalized_recommendations (catalog : List Product) (u : User) : List SearchResult :=
  (recSelect catalog u).map productToResult

/-- The greeting and recommendation keywords of ChatbotAPIView.post. -/
def greetingKeywords : List String :=
  ["hello", "hi", "welcome", "chatbot", "recommendation", "suggestion"]

/-- should_provide_recommendations: a keyword occurs in the lowercased
message, or the stripped message has fewer than 10 characters. -/
def shouldRecommend (message : String) : Bool :=
  greetingKeywords.any (fun g => strContains (lowerS message) g) ||
    (stripS message).data.length < 10

/-- One line of the templated shortcut reply for one recommended product. -/
def recLine (r : SearchResult) : String :=
  "We have " ++ r.title ++ " available from " ++ sellerName r.seller ++ " for $" ++
    toString r.price ++ " (" ++ r.condition ++ " condition).\n"

/-- Header of the templated shortcut reply, from the user profile fields. -/
def recsHeader (u : User) : String :=
  if u.location = "" && u.university = "" && u.faculty = "" then
    "Here are some recommendations for you:\n"
  else
    "For recommendations" ++ (if u.location = "" then "" else " in " ++ u.location) ++
      (if u.university = "" then "" else " at " ++ u.university) ++
      (if u.faculty = "" then "" else ", " ++ u.faculty) ++ ":\n"

/-- Parsed arguments of a tool call; query is absent when the model did
not supply it. -/
structure ToolArgs where
  query : Option String
deriving DecidableEq, Repr

/-- One tool invocation request inside a provider chat message. -/
structure ToolCall where
  call_id : String
  name : String
  args : ToolArgs
deriving DecidableEq, Repr

/-- A provider chat message: free text content (possibly null) and the
list of requested tool calls (empty when none). -/
structure LlmMessage where
  content : Option String
  tool_calls : List ToolCall
deriving DecidableEq, Repr

/-- The observable outcome of one POST request, tagged by response kind. -/
inductive PostOutcome where
  | ok (reply : Option String) (products : Option (List SearchResult))
  | badRequest
  | noApiKey
  | serverError (detail : String)
deriving DecidableEq, Repr

/-- HTTP status code of each outcome, as set in views.py. -/
def PostOutcome.status : PostOutcome → Nat
  | .ok _ _ => 200
  | .badRequest => 400
  | .noApiKey => 503
  | .serverError _ => 500

/-- The 200 response of the recommendation shortcut branch: a templated
reply over up to 3 recommended products, or the generic greeting with an
empty product list when there are no recommendations. -/
def shortcutResponse (catalog : List Product) (u : User) : PostOutcome :=
  let recs := get_personalized_recommendations catalog u
  if recs.length = 0 then
    .ok (some "Hello! I\x27m here to help you find college supplies. What are you looking for today?")
      (some [])
  else
    .ok (some (stripS (recsHeader u ++ String.join ((recs.take 3).map recLine))))
      (some (recs.take 3))

/-- The tool-call loop of ChatbotAPIView.post: iterate over the tool
calls of the first provider message; for each one named search_products,
run the local search and issue one follow-up provider call, keeping the
latest follow-up message and the latest search result; any other tool
call is skipped. The Nat threads the number of provider calls made; a
provider failure is the exception path. -/
def toolLoop (catalog : List Product) (llm : Nat → Except String LlmMessage) :
    List ToolCall → LlmMessage → Option (List SearchResult) → Nat →
      Except (String × Nat) (LlmMessage × Option (List SearchResult) × Nat)
  | [], m, searched, n => .ok (m, searched, n)
  | tc :: rest, m, searched, n =>
    if tc.name = "search_products" then
      let found := search_products catalog (tc.args.query.getD "")
      match llm n with
      | .error e => .error (e, n + 1)
      | .ok m2 => toolLoop catalog llm rest m2 (some found) (n + 1)
    else toolLoop catalog llm rest m searched n

/-- Modelled from the spec: ChatbotSerializer (src/apps/chatbot/serializers.py
is not in the sources); the spec says the request payload is validated to
hold a non-empty message, rejected with 400 otherwise. -/
def serializerValid (message : String) : Bool := message != ""

/-- ChatbotAPIView.post: validate, compute the shortcut flag, check the
API key, make the initial provider call, then either take the shortcut
branch (whose reply ignores the provider message) or run the tool-call
loop and answer with the final message content plus the searched
products when a search ran. Any provider failure is caught by the
enclosing handler and mapped to a 500 with detail only in debug mode.
Returns the outcome and the number of provider calls made. -/
def post (catalog : List Product) (user : User) (apiKeySet : Bool) (debug : Bool)
    (llm : Nat → Except String LlmMessage) (message : String) : PostOutcome × Nat :=
  if serializerValid message = false then (.badRequest, 0)
  else
    let shortcut := shouldRecommend message
    if apiKeySet = false then (.noApiKey, 0)
    else
      match llm 0 with
      | .error e => (.serverError (if debug then e else "Server error"), 1)
      | .ok m0 =>
        if shortcut then (shortcutResponse catalog user, 1)
        else
          match toolLoop catalog llm m0.tool_calls m0 none 1 with
          | .error (e, n) => (.serverError (if debug then e else "Server error"), n)
          | .ok (mF, searched, n) => (.ok mF.content searched, n)

/-- A concrete seller used by the concrete evaluations below. -/
def demoSeller : Seller :=
  ⟨1, "Bob", "bob", "alexandria", "alex university", "engineering"⟩

/-- A concrete active catalog product sold by demoSeller. -/
def demoProduct : Product :=
  ⟨1, "Ruler", "a ruler", 5, "new", some "tools", "", "", "active", some demoSeller⟩

/-- A concrete user whose only non-empty profile field is the location. -/
def demoUser : User := ⟨"cairo", "", ""⟩

/-- A provider oracle that always answers with plain text and no tool call. -/
def llmPlain : Nat → Except String LlmMessage := fun _ => .ok ⟨some "text", []⟩

/-- A provider oracle that always fails (for example a non-2xx status). -/
def llmFail : Nat → Except String LlmMessage := fun _ => .error "provider non-2xx"

/-- A provider oracle whose first message requests the declared tool
get_personalized_recommendations and whose later messages are plain text. -/
def llmRecTool : Nat → Except String LlmMessage := fun n =>
  if n = 0 then .ok ⟨some "let me check", [⟨"t1", "get_personalized_recommendations", ⟨none⟩⟩]⟩
  else .ok ⟨some "done", []⟩

/-- A provider oracle whose first message carries two parallel
search_products tool calls and whose later messages are plain text. -/
def llmTwoTools : Nat → Except String LlmMessage := fun n =>
  if n = 0 then
    .ok ⟨none, [⟨"t1", "search_products", ⟨some "ruler"⟩⟩, ⟨"t2", "search_products", ⟨some "pen"⟩⟩]⟩
  else .ok ⟨some "done", []⟩

/-- A provider oracle whose first message carries one search_products
tool call with the query argument omitted. -/
def llmNoQuery : Nat → Except String LlmMessage := fun n =>
  if n = 0 then .ok ⟨none, [⟨"t1", "search_products", ⟨none⟩⟩]⟩
  else .ok ⟨some "done", []⟩

/-- A provider oracle whose first message carries one search_products
tool call with the query ruler. -/
def llmOneSearch : Nat → Except String LlmMessage := fun n =>
  if n = 0 then .ok ⟨none, [⟨"t1", "search_products", ⟨some "ruler"⟩⟩]⟩
  else .ok ⟨some "done", []⟩

/-- A delegated-path message: 19 characters, no greeting keyword. -/
def demoMessage : String := "find me a ruler now"

/-- The empty character list is a contiguous sublist of every list. -/
theorem subList_nil (l : List Char) : subList [] l = true := by
  cases l <;> rfl

/-- The icontains lookup with an empty needle accepts every field value. -/
theorem icontains_empty (field : String) : icontains field "" = true := by
  show subList (lowerS "").data (lowerS field).data = true
  exact subList_nil _

/-- Membership in a capped filtered query implies membership in the
catalog together with the filter predicate. -/
theorem mem_filterTake {f : Product → Bool} {c : List Product} {n : Nat} {p : Product}
    (h : p ∈ (c.filter f).take n) : p ∈ c ∧ f p = true :=
  List.mem_filter.mp (List.take_subset _ _ h)

/-- A capped filtered query returns at most its cap. -/
theorem length_filterTake (f : Product → Bool) (c : List Product) (n : Nat) :
    ((c.filter f).take n).length ≤ n := by
  rw [List.length_take]
  exact min_le_left _ _

/-- The rows of a capped filtered query form a sublist of the catalog. -/
theorem filterTake_sublist (f : Product → Bool) (c : List Product) (n : Nat) :
    ((c.filter f).take n).Sublist c :=
  (List.take_sublist _ _).trans (List.filter_sublist c)

/-- The searchSelect rows come from the catalog and carry active status. -/
theorem searchSelect_mem {catalog : List Product} {q : String} {p : Product}
    (h : p ∈ searchSelect catalog q) : p ∈ catalog ∧ p.status = "active" := by
  simp only [searchSelect, searchTier1, searchTier2, searchTier3] at h
  split at h
  · split at h
    · obtain ⟨hm, hb⟩ := mem_filterTake h
      exact ⟨hm, eq_of_beq ((Bool.and_eq_true _ _).mp hb).1⟩
    · obtain ⟨hm, hb⟩ := mem_filterTake h
      exact ⟨hm, eq_of_beq ((Bool.and_eq_true _ _).mp hb).1⟩
  · obtain ⟨hm, hb⟩ := mem_filterTake h
    exact ⟨hm, eq_of_beq ((Bool.and_eq_true _ _).mp hb).1⟩

/-- A row produced by one widening pass either was already selected or is
an active catalog row passing the filter whose id was not yet selected. -/
theorem recWiden_mem {catalog : List Product} {f : Product → Bool}
    {products : List Product} {p : Product} (h : p ∈ recWiden catalog f products) :
    p ∈ products ∨ (p ∈ catalog ∧ p.status = "active" ∧ f p = true ∧
      ((products.map (fun x => x.id)).contains p.id) = false) := by
  unfold recWiden at h
  split at h
  · rcases List.mem_append.mp (List.take_subset _ _ h) with h3 | h3
    · exact .inl h3
    · right
      obtain ⟨hm, hb⟩ := mem_filterTake h3
      simp only [Bool.and_eq_true, beq_iff_eq, Bool.not_eq_true'] at hb
      exact ⟨hm, hb.1.1, hb.1.2, hb.2⟩
  · exact .inl h

/-- The recSelect rows come from the catalog and carry active status. -/
theorem recSelect_mem {catalog : List Product} {u : User} {p : Product}
    (h : p ∈ recSelect catalog u) : p ∈ catalog ∧ p.status = "active" := by
  simp only [recSelect] at h
  split at h
  · exact absurd h (List.not_mem_nil p)
  · rcases recWiden_mem h with h1 | h1
    · rcases recWiden_mem h1 with h2 | h2
      · obtain ⟨hm, hb⟩ := mem_filterTake (by simpa [recPass1] using h2)
        exact ⟨hm, eq_of_beq ((Bool.and_eq_true _ _).mp hb).1⟩
      · exact ⟨h2.1, h2.2.1⟩
    · exact ⟨h1.1, h1.2.1⟩

/-- searchSelect returns at most 10 rows. -/
theorem searchSelect_length_le (catalog : List Product) (q : String) :
    (searchSelect catalog q).length ≤ 10 := by
  simp only [searchSelect, searchTier1, searchTier2, searchTier3]
  split
  · split
    · exact length_filterTake _ _ _
    · exact length_filterTake _ _ _
  · exact length_filterTake _ _ _

/-- One widening pass keeps the selection within 5 rows. -/
theorem recWiden_length_le (catalog : List Product) (f : Product → Bool)
    (products : List Product) (h : products.length ≤ 5) :
    (recWiden catalog f products).length ≤ 5 := by
  unfold recWiden
  split
  · rw [List.length_take]
    exact min_le_left _ _
  · exact h

/-- recSelect returns at most 5 rows. -/
theorem recSelect_length_le (catalog : List Product) (u : User) :
    (recSelect catalog u).length ≤ 5 := by
  simp only [recSelect]
  split
  · simp
  · exact recWiden_length_le _ _ _ (recWiden_length_le _ _ _ (length_filterTake _ _ _))

/-- Claim C9: for every catalog, query and user, search_products returns
at most 10 results and get_personalized_recommendations returns at most
5 results, whatever tier or widening pass supplied them. -/
theorem result_caps (catalog : List Product) (q : String) (u : User) :
    (search_products catalog q).length ≤ 10 ∧
      (get_personalized_recommendations catalog u).length ≤ 5 := by
  constructor
  · rw [search_products, List.length_map]
    exact searchSelect_length_le catalog q
  · rw [get_personalized_recommendations, List.length_map]
    exact recSelect_length_le catalog u

/-- Claim C7: for every query and every user, each result of
search_products and of get_personalized_recommendations is the
projection of a catalog product whose status is active; inactive
products are never surfaced by any tier or pass. -/
theorem active_only (catalog : List Product) (q : String) (u : User) :
    (∀ r ∈ search_products catalog q,
      ∃ p, p ∈ catalog ∧ p.status = "active" ∧ r = productToResult p) ∧
    (∀ r ∈ get_personalized_recommendations catalog u,
      ∃ p, p ∈ catalog ∧ p.status = "active" ∧ r = productToResult p) := by
  constructor
  · intro r hr
    obtain ⟨p, hp, hpr⟩ := List.mem_map.mp hr
    obtain ⟨hmem, hact⟩ := searchSelect_mem hp
    exact ⟨p, hmem, hact, hpr.symm⟩
  · intro r hr
    obtain ⟨p, hp, hpr⟩ := List.mem_map.mp hr
    obtain ⟨hmem, hact⟩ := recSelect_mem hp
    exact ⟨p, hmem, hact, hpr.symm⟩

/-- Witness for claim C7 at a concrete catalog, query and result. -/
theorem active_only_witness :
    ∃ p, p ∈ [demoProduct] ∧ p.status = "active" ∧
      productToResult demoProduct = productToResult p :=
  (active_only [demoProduct] "ruler" demoUser).1 (productToResult demoProduct) (by decide)

/-- A list not containing an id (in the Bool sense of the ORM exclusion)
indeed has no member equal to it. -/
theorem contains_false_not_mem {l : List Nat} {a : Nat} (h : l.contains a = false) :
    a ∉ l := by
  intro hmem
  have hel := List.elem_iff.mpr hmem
  rw [show l.contains a = l.elem a from rfl, hel] at h
  exact absurd h (by decide)

/-- One widening pass preserves distinctness of the selected ids, given
that the catalog ids are distinct. -/
theorem recWiden_nodup {catalog : List Product} {f : Product → Bool} {products : List Product}
    (hcat : (catalog.map (fun x => x.id)).Nodup)
    (h : (products.map (fun x => x.id)).Nodup) :
    ((recWiden catalog f products).map (fun x => x.id)).Nodup := by
  unfold recWiden
  split
  · rw [List.map_take]
    apply List.Nodup.sublist (List.take_sublist _ _)
    rw [List.map_append]
    apply List.Nodup.append h
    · exact List.Nodup.sublist ((filterTake_sublist _ _ _).map _) hcat
    · intro a ha ha2
      obtain ⟨z, hz, hza⟩ := List.mem_map.mp ha2
      obtain ⟨_, hb⟩ := mem_filterTake hz
      simp only [Bool.and_eq_true, Bool.not_eq_true'] at hb
      have hzin : z.id ∈ products.map (fun x => x.id) := by rw [hza]; exact ha
      exact absurd hzin (contains_false_not_mem hb.2)
  · exact h

/-- recSelect never selects the same product id twice, given distinct
catalog ids. -/
theorem recSelect_nodup {catalog : List Product} {u : User}
    (hcat : (catalog.map (fun x => x.id)).Nodup) :
    ((recSelect catalog u).map (fun x => x.id)).Nodup := by
  simp only [recSelect]
  split
  · simp
  · refine recWiden_nodup hcat (recWiden_nodup hcat ?_)
    exact List.Nodup.sublist ((filterTake_sublist _ _ _).map _) hcat

/-- Claim C8: for every user, when the catalog ids are distinct the
sequence returned by get_personalized_recommendations has no repeated
product id; the widening passes exclude every already-selected id. -/
theorem rec_ids_nodup (catalog : List Product) (u : User)
    (hcat : (catalog.map (fun x => x.id)).Nodup) :
    ((get_personalized_recommendations catalog u).map (fun r => r.id)).Nodup := by
  rw [get_personalized_recommendations, List.map_map]
  exact recSelect_nodup hcat

/-- Witness for claim C8 at a concrete catalog and user. -/
theorem rec_ids_nodup_witness :
    ((get_personalized_recommendations [demoProduct] demoUser).map (fun r => r.id)).Nodup :=
  rec_ids_nodup [demoProduct] demoUser (by decide)

/-- Claim C5: for every catalog and query, searchSelect equals exactly
one of the three tiers, and whenever some active product title contains
the normalized query the result is the title tier and every returned row
is an active title match; tiers are never merged. -/
theorem search_tiers_exclusive (catalog : List Product) (query : String) :
    (searchSelect catalog query = searchTier1 catalog (normQuery query) ∨
      searchSelect catalog query = searchTier2 catalog (normQuery query) ∨
      searchSelect catalog query = searchTier3 catalog (normQuery query)) ∧
    (∀ p ∈ catalog, p.status = "active" → icontains p.title (normQuery query) = true →
      searchSelect catalog query = searchTier1 catalog (normQuery query) ∧
      ∀ r ∈ searchSelect catalog query, r.status = "active" ∧
        icontains r.title (normQuery query) = true) := by
  constructor
  · simp only [searchSelect]
    split
    · split
      · exact .inr (.inr rfl)
      · exact .inr (.inl rfl)
    · exact .inl rfl
  · intro p hp hact ht
    have hmem : p ∈ catalog.filter
        (fun x => x.status == "active" && icontains x.title (normQuery query)) :=
      List.mem_filter.mpr ⟨hp, by simp [hact, ht]⟩
    have hne : ¬ (searchTier1 catalog (normQuery query)).length = 0 := by
      intro h0
      rw [List.length_eq_zero, searchTier1] at h0
      rcases List.take_eq_nil_iff.mp h0 with h' | h'
      · exact absurd h' (by decide)
      · exact absurd h' (List.ne_nil_of_mem hmem)
    have heq : searchSelect catalog query = searchTier1 catalog (normQuery query) := by
      simp only [searchSelect]
      rw [if_neg hne]
    refine ⟨heq, ?_⟩
    intro r hr
    rw [heq] at hr
    obtain ⟨_, hb⟩ := mem_filterTake (by simpa [searchTier1] using hr)
    obtain ⟨h1, h2⟩ := (Bool.and_eq_true _ _).mp hb
    exact ⟨eq_of_beq h1, h2⟩

/-- Witness for claim C5 at a concrete catalog and query. -/
theorem search_tiers_exclusive_witness :
    searchSelect [demoProduct] "Ruler" = searchTier1 [demoProduct] (normQuery "Ruler") ∧
      ∀ r ∈ searchSelect [demoProduct] "Ruler", r.status = "active" ∧
        icontains r.title (normQuery "Ruler") = true :=
  (search_tiers_exclusive [demoProduct] "Ruler").2 demoProduct (by decide) (by decide)
    (by decide)

/-- When no active product exists, strengthening the active filter with
any further condition still selects nothing. -/
theorem filter_and_nil {catalog : List Product} (g : Product → Bool)
    (hnil : catalog.filter (fun p => p.status == "active") = []) :
    catalog.filter (fun p => p.status == "active" && g p) = [] := by
  rw [List.eq_nil_iff_forall_not_mem]
  intro p hp
  obtain ⟨hm, hb⟩ := List.mem_filter.mp hp
  have hmem : p ∈ catalog.filter (fun p => p.status == "active") :=
    List.mem_filter.mpr ⟨hm, ((Bool.and_eq_true _ _).mp hb).1⟩
  rw [hnil] at hmem
  exact absurd hmem (List.not_mem_nil p)

/-- A query that normalizes to the empty string turns the title tier
into the bare active filter (the empty substring matches every title),
so searchSelect returns the first 10 active products. -/
theorem searchSelect_empty_query (catalog : List Product) (query : String)
    (hq : normQuery query = "") :
    searchSelect catalog query =
      (catalog.filter (fun p => p.status == "active")).take 10 := by
  have h1 : searchTier1 catalog (normQuery query) =
      (catalog.filter (fun p => p.status == "active")).take 10 := by
    rw [searchTier1, hq]
    congr 1
    apply List.filter_congr
    intro x _
    simp [icontains_empty]
  simp only [searchSelect]
  split
  · rename_i h
    rw [h1, List.length_eq_zero] at h
    have hfnil : catalog.filter (fun p => p.status == "active") = [] := by
      rcases List.take_eq_nil_iff.mp h with h' | h'
      · exact absurd h' (by decide)
      · exact h'
    have h2 : searchTier2 catalog (normQuery query) = [] := by
      rw [searchTier2, hq, filter_and_nil (fun p => icontains p.description "") hfnil]
      rfl
    have h3 : searchTier3 catalog (normQuery query) = [] := by
      rw [searchTier3, hq, filter_and_nil (fun p => categoryMatch "" p) hfnil]
      rfl
    split
    · rw [h3, hfnil]
      rfl
    · rename_i h2'
      rw [h2] at h2'
      simp at h2'
  · exact h1

/-- The tool loop with no tool calls left returns its state unchanged. -/
theorem toolLoop_nil (catalog : List Product) (llm : Nat → Except String LlmMessage)
    (m : LlmMessage) (searched : Option (List SearchResult)) (n : Nat) :
    toolLoop catalog llm [] m searched n = .ok (m, searched, n) := rfl

/-- A tool call not named search_products is skipped by the loop. -/
theorem toolLoop_skip (catalog : List Product) (llm : Nat → Except String LlmMessage)
    (tc : ToolCall) (rest : List ToolCall) (m : LlmMessage)
    (searched : Option (List SearchResult)) (n : Nat)
    (h : ¬ tc.name = "search_products") :
    toolLoop catalog llm (tc :: rest) m searched n =
      toolLoop catalog llm rest m searched n := by
  simp only [toolLoop]
  rw [if_neg h]

/-- A search_products tool call runs the local search and one follow-up
provider call, then continues the loop with the follow-up message. -/
theorem toolLoop_search_ok (catalog : List Product) (llm : Nat → Except String LlmMessage)
    (tc : ToolCall) (rest : List ToolCall) (m : LlmMessage)
    (searched : Option (List SearchResult)) (n : Nat) (m2 : LlmMessage)
    (hname : tc.name = "search_products") (h : llm n = .ok m2) :
    toolLoop catalog llm (tc :: rest) m searched n =
      toolLoop catalog llm rest m2
        (some (search_products catalog (tc.args.query.getD ""))) (n + 1) := by
  simp only [toolLoop]
  rw [if_pos hname, h]

/-- A provider failure on the follow-up call aborts the loop. -/
theorem toolLoop_search_error (catalog : List Product) (llm : Nat → Except String LlmMessage)
    (tc : ToolCall) (rest : List ToolCall) (m : LlmMessage)
    (searched : Option (List SearchResult)) (n : Nat) (e : String)
    (hname : tc.name = "search_products") (h : llm n = .error e) :
    toolLoop catalog llm (tc :: rest) m searched n = .error (e, n + 1) := by
  simp only [toolLoop]
  rw [if_pos hname, h]

/-- A failing initial provider call is caught by the blanket handler. -/
theorem post_llm_error (catalog : List Product) (u : User) (debug : Bool)
    (llm : Nat → Except String LlmMessage) (message : String) (e : String)
    (hv : (message != "") = true) (h0 : llm 0 = .error e) :
    post catalog u true debug llm message =
      (.serverError (if debug then e else "Server error"), 1) := by
  simp only [post, serializerValid, hv, h0]
  rfl

/-- A valid greeting-like request takes the shortcut branch after the
initial provider call. -/
theorem post_shortcut (catalog : List Product) (u : User) (debug : Bool)
    (llm : Nat → Except String LlmMessage) (message : String) (m0 : LlmMessage)
    (hv : (message != "") = true) (hsc : shouldRecommend message = true)
    (h0 : llm 0 = .ok m0) :
    post catalog u true debug llm message = (shortcutResponse catalog u, 1) := by
  simp only [post, serializerValid, hv, h0, hsc]
  rfl

/-- A valid non-shortcut request runs the tool loop on the first
provider message and formats its outcome. -/
theorem post_delegated (catalog : List Product) (u : User) (debug : Bool)
    (llm : Nat → Except String LlmMessage) (message : String) (m0 : LlmMessage)
    (hv : (message != "") = true) (hsc : shouldRecommend message = false)
    (h0 : llm 0 = .ok m0) :
    post catalog u true debug llm message =
      (match toolLoop catalog llm m0.tool_calls m0 none 1 with
        | .error (e, n) => (.serverError (if debug then e else "Server error"), n)
        | .ok (mF, searched, n) => (.ok mF.content searched, n)) := by
  simp only [post, serializerValid, hv, h0, hsc]
  rfl

/-- When the provider never fails, the loop over the tool calls of the
first message succeeds and makes exactly one follow-up provider call for
each tool call named search_products. -/
theorem toolLoop_count (catalog : List Product) (llm : Nat → Except String LlmMessage)
    (hok : ∀ k, ∃ mm, llm k = .ok mm) :
    ∀ (tcs : List ToolCall) (m : LlmMessage) (searched : Option (List SearchResult)) (n : Nat),
      ∃ mF sF, toolLoop catalog llm tcs m searched n =
        .ok (mF, sF, n + (tcs.filter (fun tc => tc.name == "search_products")).length) := by
  intro tcs
  induction tcs with
  | nil => intro m searched n; exact ⟨m, searched, rfl⟩
  | cons tc rest ih =>
    intro m searched n
    by_cases hname : tc.name = "search_products"
    · obtain ⟨mm, hmm⟩ := hok n
      obtain ⟨mF, sF, hF⟩ := ih mm (some (search_products catalog (tc.args.query.getD ""))) (n + 1)
      refine ⟨mF, sF, ?_⟩
      rw [toolLoop_search_ok catalog llm tc rest m searched n mm hname hmm, hF]
      have hlen : ((tc :: rest).filter (fun t => t.name == "search_products")).length
          = (rest.filter (fun t => t.name == "search_products")).length + 1 := by
        simp [List.filter_cons, hname]
      rw [hlen]
      have harith : n + 1 + (rest.filter (fun t => t.name == "search_products")).length
          = n + ((rest.filter (fun t => t.name == "search_products")).length + 1) := by
        omega
      rw [harith]
    · obtain ⟨mF, sF, hF⟩ := ih m searched n
      refine ⟨mF, sF, ?_⟩
      rw [toolLoop_skip catalog llm tc rest m searched n hname, hF]
      have hlen : ((tc :: rest).filter (fun t => t.name == "search_products")).length
          = (rest.filter (fun t => t.name == "search_products")).length := by
        simp [List.filter_cons, hname]
      rw [hlen]

/-- Claim C1 counterexample: on the greeting hello the code still makes
the initial provider call before taking the shortcut branch, so one
provider call occurs, not zero as the claim requires. -/
theorem shortcut_still_calls_llm :
    shouldRecommend "hello" = true ∧
      (post [demoProduct] demoUser true false llmPlain "hello").2 = 1 ∧
      ¬ (post [demoProduct] demoUser true false llmPlain "hello").2 = 0 :=
  ⟨by decide, by decide, by decide⟩

/-- Claim C1 (amended): on the shortcut path the orchestrator answers
from get_personalized_recommendations, ignoring the provider message,
with exactly one provider call (the unconditional initial one); when
recommendations exist the 200 response carries their first 3. -/
theorem shortcut_path (catalog : List Product) (u : User) (debug : Bool)
    (llm : Nat → Except String LlmMessage) (message : String) (m0 : LlmMessage)
    (hv : (message != "") = true) (hsc : shouldRecommend message = true)
    (h0 : llm 0 = .ok m0) :
    post catalog u true debug llm message = (shortcutResponse catalog u, 1) ∧
      (¬ get_personalized_recommendations catalog u = [] →
        ∃ s, (post catalog u true debug llm message).1 =
          .ok (some s) (some ((get_personalized_recommendations catalog u).take 3))) := by
  have hp := post_shortcut catalog u debug llm message m0 hv hsc h0
  refine ⟨hp, ?_⟩
  intro hne
  rw [hp]
  refine ⟨stripS (recsHeader u ++
    String.join (((get_personalized_recommendations catalog u).take 3).map recLine)), ?_⟩
  show shortcutResponse catalog u = _
  simp only [shortcutResponse]
  rw [if_neg (fun h => hne (List.length_eq_zero.mp h))]

/-- Witness for the amended claim C1 at a concrete request. -/
theorem shortcut_path_witness :
    post [demoProduct] demoUser true false llmPlain "hello" =
      (shortcutResponse [demoProduct] demoUser, 1) :=
  (shortcut_path [demoProduct] demoUser false llmPlain "hello" ⟨some "text", []⟩
    (by decide) (by decide) rfl).1

/-- Claim C2 fails on the code: for demoUser, whose only non-empty
profile field is the location cairo, pass 2 widens with empty university
and faculty filters, which match every seller, and returns demoProduct
although its seller matches none of the non-empty user fields; this
contradicts the in-code comment that the function never falls back to
general products without a meaningful match. -/
theorem rec_returns_unrelated_product :
    demoUser.location = "cairo" ∧ demoUser.university = "" ∧ demoUser.faculty = "" ∧
      demoProduct.seller = some demoSeller ∧
      icontains demoSeller.location demoUser.location = false ∧
      get_personalized_recommendations [demoProduct] demoUser =
        [productToResult demoProduct] :=
  ⟨rfl, rfl, rfl, rfl, by decide, by decide⟩

/-- Claim C3 counterexample: a provider failure on a delegated request is
answered with HTTP status 500, not 502. -/
theorem upstream_failure_observed_500 :
    ((post [demoProduct] demoUser true false llmFail demoMessage).1).status = 500 ∧
      ¬ ((post [demoProduct] demoUser true false llmFail demoMessage).1).status = 502 :=
  ⟨by decide, by decide⟩

/-- Claim C3 (amended): every failing initial provider call is caught by
the blanket exception handler and mapped to the 500 serverError outcome,
with the exception detail only in debug mode; no 502 gateway response
exists in the code. -/
theorem upstream_failure_maps_to_500 (catalog : List Product) (u : User) (debug : Bool)
    (llm : Nat → Except String LlmMessage) (message : String) (e : String)
    (hv : (message != "") = true) (h0 : llm 0 = .error e) :
    (post catalog u true debug llm message).1 =
      .serverError (if debug then e else "Server error") ∧
    ((post catalog u true debug llm message).1).status = 500 := by
  have hp := post_llm_error catalog u debug llm message e hv h0
  rw [hp]
  exact ⟨rfl, rfl⟩

/-- Witness for the amended claim C3 at a concrete request. -/
theorem upstream_failure_maps_to_500_witness :
    ((post [demoProduct] demoUser true false llmFail demoMessage).1).status = 500 :=
  (upstream_failure_maps_to_500 [demoProduct] demoUser false llmFail demoMessage
    "provider non-2xx" (by decide) rfl).2

/-- Claim C4 counterexample: when the first provider message requests the
declared tool get_personalized_recommendations, the orchestrator ignores
it: no local function result is attached, no follow-up provider call is
made (one call in total), and the first message content is returned. -/
theorem rec_tool_call_ignored :
    post [demoProduct] demoUser true false llmRecTool demoMessage =
      (.ok (some "let me check") none, 1) := by decide

/-- Claim C4 (amended): a tool call named search_products is executed
and its result fed back through one follow-up provider call; a single
tool call with any other name, get_personalized_recommendations
included, is ignored: no follow-up call and no products attached. -/
theorem only_search_tool_executed (catalog : List Product) (u : User) (debug : Bool)
    (llm : Nat → Except String LlmMessage) (message : String) (m0 m1 : LlmMessage)
    (tc : ToolCall)
    (hv : (message != "") = true) (hsc : shouldRecommend message = false)
    (h0 : llm 0 = .ok m0) (htc : m0.tool_calls = [tc]) :
    (tc.name = "search_products" → llm 1 = .ok m1 →
      post catalog u true debug llm message =
        (.ok m1.content (some (search_products catalog (tc.args.query.getD ""))), 2)) ∧
    (¬ tc.name = "search_products" →
      post catalog u true debug llm message = (.ok m0.content none, 1)) := by
  have hp := post_delegated catalog u debug llm message m0 hv hsc h0
  rw [htc] at hp
  constructor
  · intro hname h1
    rw [hp, toolLoop_search_ok catalog llm tc [] m0 none 1 m1 hname h1, toolLoop_nil]
  · intro hname
    rw [hp, toolLoop_skip catalog llm tc [] m0 none 1 hname, toolLoop_nil]

/-- Witness for the amended claim C4 at a concrete request. -/
theorem only_search_tool_executed_witness :
    post [demoProduct] demoUser true false llmOneSearch demoMessage =
      (.ok (some "done") (some (search_products [demoProduct] "ruler")), 2) :=
  (only_search_tool_executed [demoProduct] demoUser false llmOneSearch demoMessage
    ⟨none, [⟨"t1", "search_products", ⟨some "ruler"⟩⟩]⟩ ⟨some "done", []⟩
    ⟨"t1", "search_products", ⟨some "ruler"⟩⟩
    (by decide) (by decide) rfl rfl).1 rfl rfl

/-- Claim C6 counterexample: two parallel search_products tool calls in
the first provider message lead to three provider round-trips. -/
theorem three_provider_calls :
    (post [demoProduct] demoUser true false llmTwoTools demoMessage).2 = 3 ∧
      ¬ (post [demoProduct] demoUser true false llmTwoTools demoMessage).2 ≤ 2 :=
  ⟨by decide, by decide⟩

/-- Claim C6 (amended): on a never-failing provider, a delegated request
makes exactly one initial provider call plus one follow-up per tool call
named search_products in the first message; in particular with at most
one tool call there are at most two provider round-trips. -/
theorem provider_call_count (catalog : List Product) (u : User) (debug : Bool)
    (llm : Nat → Except String LlmMessage) (message : String) (m0 : LlmMessage)
    (hv : (message != "") = true) (hsc : shouldRecommend message = false)
    (h0 : llm 0 = .ok m0) (hok : ∀ k, ∃ mm, llm k = .ok mm) :
    (post catalog u true debug llm message).2 =
      1 + (m0.tool_calls.filter (fun tc => tc.name == "search_products")).length ∧
    (m0.tool_calls.length ≤ 1 → (post catalog u true debug llm message).2 ≤ 2) := by
  obtain ⟨mF, sF, hF⟩ := toolLoop_count catalog llm hok m0.tool_calls m0 none 1
  have hp := post_delegated catalog u debug llm message m0 hv hsc h0
  rw [hF] at hp
  have h2 : (post catalog u true debug llm message).2 =
      1 + (m0.tool_calls.filter (fun tc => tc.name == "search_products")).length := by
    rw [hp]
  refine ⟨h2, ?_⟩
  intro hlen
  rw [h2]
  have hfl := List.length_filter_le (fun tc => tc.name == "search_products") m0.tool_calls
  omega

/-- Witness for the amended claim C6 at a concrete request. -/
theorem provider_call_count_witness :
    (post [demoProduct] demoUser true false llmOneSearch demoMessage).2 = 2 :=
  (provider_call_count [demoProduct] demoUser false llmOneSearch demoMessage
    ⟨none, [⟨"t1", "search_products", ⟨some "ruler"⟩⟩]⟩ (by decide) (by decide) rfl
    (fun k => by cases k <;> exact ⟨_, rfl⟩)).1

/-- Claim C10: when the single search_products tool call omits the query
argument or supplies one that normalizes to the empty string, the
orchestrator still runs search_products on the empty query, the empty
substring matches every active title, and the response attaches the
first 10 active products rather than an error or a forced empty list. -/
theorem empty_query_reaches_search (catalog : List Product) (u : User) (debug : Bool)
    (llm : Nat → Except String LlmMessage) (message : String) (m0 m1 : LlmMessage)
    (cid : String) (q : Option String)
    (hv : (message != "") = true) (hsc : shouldRecommend message = false)
    (h0 : llm 0 = .ok m0) (htc : m0.tool_calls = [⟨cid, "search_products", ⟨q⟩⟩])
    (hq : normQuery (q.getD "") = "") (h1 : llm 1 = .ok m1) :
    post catalog u true debug llm message =
      (.ok m1.content (some (search_products catalog (q.getD ""))), 2) ∧
    search_products catalog (q.getD "") =
      ((catalog.filter (fun p => p.status == "active")).take 10).map productToResult := by
  constructor
  · have hp := post_delegated catalog u debug llm message m0 hv hsc h0
    rw [htc] at hp
    rw [hp, toolLoop_search_ok catalog llm ⟨cid, "search_products", ⟨q⟩⟩ [] m0 none 1 m1
      rfl h1, toolLoop_nil]
  · rw [search_products, searchSelect_empty_query catalog (q.getD "") hq]

/-- Witness for claim C10 at a concrete request with an omitted query. -/
theorem empty_query_reaches_search_witness :
    post [demoProduct] demoUser true false llmNoQuery demoMessage =
      (.ok (some "done") (some (search_products [demoProduct] "")), 2) :=
  (empty_query_reaches_search [demoProduct] demoUser false llmNoQuery demoMessage
    ⟨none, [⟨"t1", "search_products", ⟨none⟩⟩]⟩ ⟨some "done", []⟩ "t1" none
    (by decide) (by decide) rfl rfl (by decide) rfl).1
